import Mathlib

/-!
Shallow embedding of the video capture pipeline of gemini-playground:
`VideoManager` (src/static/js/video/video-manager.js),
`VideoRecorder` (src/static/js/video/video-recorder.js) and
`ScreenRecorder` (screen-recorder.js).

Pixel buffers are lists of byte values (`List Nat`); JavaScript numbers
appearing in the motion score are modelled as exact rationals (all the
divisions involved — by 3, 4 and 2 — are exact in binary floating point
for the integer operands produced by the code, so `Rat` is faithful).
Stateful objects become explicit state records; DOM/device effects are
modelled by explicit state fields and an input `Device` describing what
the browser environment returns.
-/

/-- `MOTION_THRESHOLD` from the `VideoManager` constructor. -/
def MOTION_THRESHOLD : ℚ := 10

/-- `FRAME_INTERVAL` (minimum ms between frames) from the `VideoManager` constructor. -/
def FRAME_INTERVAL : ℕ := 200

/-- `FORCE_FRAME_INTERVAL` from the `VideoManager` constructor. -/
def FORCE_FRAME_INTERVAL : ℕ := 10

/-- `Math.abs(a - b)` for byte values. -/
def absDiff (a b : ℕ) : ℕ := max a b - min a b

/-- One iteration body of the `detectMotion` loop: the mean absolute
difference of the R, G, B channels of the pixel starting at byte index `i`
(`(rDiff + gDiff + bDiff) / 3`). Out-of-range reads default to 0; for RGBA
buffers (length divisible by 4) every access the loop makes is in range. -/
def channelDiff (prev curr : List ℕ) (i : ℕ) : ℚ :=
  ((absDiff (prev.getD i 0) (curr.getD i 0) +
    absDiff (prev.getD (i + 1) 0) (curr.getD (i + 1) 0) +
    absDiff (prev.getD (i + 2) 0) (curr.getD (i + 2) 0) : ℕ) : ℚ) / 3

/-- The byte indices visited by the loop
`for (let i = 0; i < prevFrame.length; i += 4 * skipPixels)` with
`skipPixels = 2`: the multiples of 8 below `len`. -/
def sampledIndices (len : ℕ) : List ℕ :=
  (List.range ((len + 7) / 8)).map (fun k => 8 * k)

/-- `VideoManager.detectMotion(prevFrame, currentFrame)`:
`diff` accumulated over every sampled pixel, divided by
`pixelsToCheck / skipPixels` where `pixelsToCheck = prevFrame.length / 4`
and `skipPixels = 2` (exact float divisions, modelled in ℚ). -/
def detectMotion (prev curr : List ℕ) : ℚ :=
  (((sampledIndices prev.length).map (channelDiff prev curr)).sum) /
    (((prev.length : ℚ) / 4) / 2)

/-- Modelled from the spec words (not from the source): the motion score as
"the average, over every 2nd pixel, of the mean absolute difference of the
R, G and B channels", i.e. the sampled-pixel sum divided by the NUMBER of
sampled pixels. Used to compare the spec's description with `detectMotion`. -/
def detectMotionSpecAvg (prev curr : List ℕ) : ℚ :=
  (((sampledIndices prev.length).map (channelDiff prev curr)).sum) /
    ((sampledIndices prev.length).length : ℚ)

/-- Membership test of the base64 alphabet used by the regex
`^[A-Za-z0-9+/=]+$` in `validateFrame`. -/
def isBase64Char (c : Char) : Bool :=
  (65 ≤ c.toNat && c.toNat ≤ 90) || (97 ≤ c.toNat && c.toNat ≤ 122) ||
  (48 ≤ c.toNat && c.toNat ≤ 57) || c == '+' || c == '/' || c == '='

/-- `VideoRecorder.validateFrame(base64Data)`: rejects an empty payload,
a payload with a character outside the base64 alphabet, and a payload
shorter than 1024 characters. -/
def validateFrame (p : String) : Bool :=
  if p.isEmpty || !(p.toList.all isBase64Char) then false
  else if p.length < 1024 then false
  else true

/-- A `MediaStreamTrack`: stopped flag plus the `getSettings()` resolution. -/
structure MediaTrack where
  id : ℕ
  stopped : Bool
  width : ℕ
  height : ℕ
deriving DecidableEq

/-- `track.stop()`. -/
def stopTrack (t : MediaTrack) : MediaTrack := { t with stopped := true }

/-- The HTML `<video>` preview element's observable state. -/
structure PreviewState where
  srcAttached : Bool
  width : ℕ
  height : ℕ
  playing : Bool
deriving DecidableEq

/-- What the browser environment returns during `start`: whether
`getUserMedia`/`getDisplayMedia` grants access, the tracks of the granted
stream (whose settings carry the NEGOTIATED resolution), and whether the
preview element's `play()` succeeds. -/
structure Device where
  grant : Bool
  tracks : List MediaTrack
  playOk : Bool
deriving DecidableEq

/-- The `options` record built in the `VideoRecorder` constructor.
`fps` is `Option ℕ` because the object spread `...options` overwrites the
`options.fps || 1` default with whatever was passed, even `undefined`. -/
structure RecorderOptions where
  fps : Option ℕ
  quality : ℚ
  width : ℕ
  height : ℕ
  maxFrameSize : ℕ
deriving DecidableEq

/-- `VideoRecorder` instance state. `released` is a ghost ledger recording
every track on which `track.stop()` was called, so that release of device
tracks stays observable after the stream reference is nulled. -/
structure RecState where
  stream : Option (List MediaTrack)
  preview : Option PreviewState
  isRecording : Bool
  hasCallback : Bool
  canvasW : ℕ
  canvasH : ℕ
  canvasHasContent : Bool
  timerArmed : Bool
  actualWidth : ℕ
  actualHeight : ℕ
  frameCount : ℕ
  options : RecorderOptions
  released : List MediaTrack
deriving DecidableEq

/-- `new VideoRecorder({fps: fps})`: defaults quality 0.6, 640×480,
100KB max frame; `actualWidth`/`actualHeight` initialised from the
requested option dimensions; a fresh canvas (HTML default 300×150). -/
def mkRecorder (fps : Option ℕ) : RecState :=
  { stream := none
    preview := none
    isRecording := false
    hasCallback := false
    canvasW := 300
    canvasH := 150
    canvasHasContent := false
    timerArmed := false
    actualWidth := 640
    actualHeight := 480
    frameCount := 0
    options := { fps := fps, quality := 6 / 10, width := 640, height := 480,
                 maxFrameSize := 102400 }
    released := [] }

/-- Typed errors surfaced by the pipeline (`ErrorCodes.*`). -/
inductive VError where
  | videoStartFailed
  | videoFlipFailed
  | screenPermissionDenied
  | screenStartFailed
deriving DecidableEq

/-- `VideoRecorder.start(previewElement, facingMode, onVideoData)`.
Returns the mutated instance state together with success or the typed
error thrown (every failure is wrapped in `VIDEO_START_FAILED`).
Failure paths, in source order: `getUserMedia` rejected (stream field
untouched), a granted stream with zero tracks, and `previewElement.play()`
rejected (rethrown to the caller). On success the actual (negotiated)
resolution is read back from the first track's settings and used for the
internal frame canvas and the preview element's dimensions, the sampling
timer is armed and recording is marked active. -/
def VideoRecorder.start (s : RecState) (pv : PreviewState) (dev : Device) :
    RecState × Except VError Unit :=
  let s0 := { s with preview := some pv, hasCallback := true }
  if dev.grant = false then
    (s0, Except.error VError.videoStartFailed)
  else
    let s1 := { s0 with stream := some dev.tracks }
    match dev.tracks with
    | [] => (s1, Except.error VError.videoStartFailed)
    | t :: _ =>
      let s2 := { s1 with
        actualWidth := t.width
        actualHeight := t.height
        canvasW := t.width
        canvasH := t.height
        preview := some { pv with srcAttached := true, width := t.width, height := t.height } }
      if dev.playOk = false then
        (s2, Except.error VError.videoStartFailed)
      else
        ({ s2 with
            preview := some { pv with srcAttached := true, width := t.width, height := t.height, playing := true }
            isRecording := true
            timerArmed := true }, Except.ok ())

/-- A frame emitted by a recorder tick: payload plus producing resolution. -/
structure Emission where
  payload : String
  width : ℕ
  height : ℕ
deriving DecidableEq

/-- Result of one sampling tick. -/
structure TickResult where
  state : RecState
  emitted : Option Emission
  logged : Bool
deriving DecidableEq

/-- One body execution of the `setInterval` callback in
`VideoRecorder.startFrameCapture`. `readyState` is the preview element's
value (`HAVE_CURRENT_DATA = 2`); `payload` is the base64 body produced by
`toDataURL` when the frame is drawn. Validation failure drops the frame
and logs; success increments the frame counter and emits the payload with
the ACTUAL dimensions. -/
def videoTick (s : RecState) (readyState : ℕ) (payload : String) : TickResult :=
  if s.isRecording = false ∨ s.hasCallback = false ∨ s.preview = none then
    ⟨s, none, false⟩
  else if 2 ≤ readyState then
    let s1 := { s with canvasHasContent := true }
    if validateFrame payload = false then ⟨s1, none, true⟩
    else ⟨{ s1 with frameCount := s1.frameCount + 1 },
          some ⟨payload, s.actualWidth, s.actualHeight⟩, false⟩
  else ⟨s, none, false⟩

/-- `VideoRecorder.stop()`: clears recording flag and sampling timer, stops
every stream track and nulls the stream, pauses and detaches the preview
(srcObject and src cleared, buffer dropped), clears the internal canvas. -/
def VideoRecorder.stop (s : RecState) : RecState :=
  let s1 := { s with isRecording := false, timerArmed := false }
  let s2 :=
    match s1.stream with
    | some ts => { s1 with stream := none, released := s1.released ++ ts.map stopTrack }
    | none => s1
  let s3 :=
    match s2.preview with
    | some p => { s2 with preview := some { p with srcAttached := false, playing := false } }
    | none => s2
  { s3 with canvasHasContent := false }

/-- `ScreenRecorder` instance state. -/
structure ScreenState where
  stream : Option (List MediaTrack)
  preview : Option PreviewState
  isRecording : Bool
  hasCallback : Bool
  canvasW : ℕ
  canvasH : ℕ
  canvasHasContent : Bool
  timerArmed : Bool
  frameCount : ℕ
  released : List MediaTrack
deriving DecidableEq

/-- `new ScreenRecorder(options)` with no fps override. -/
def mkScreenRecorder : ScreenState :=
  { stream := none
    preview := none
    isRecording := false
    hasCallback := false
    canvasW := 300
    canvasH := 150
    canvasHasContent := false
    timerArmed := false
    frameCount := 0
    released := [] }

/-- `ScreenRecorder.start(previewElement, onScreenData)`. A `play()`
failure on the preview is caught with `resolve()` — "Resolve anyway to not
block" — so start proceeds; only on a successful `play()` is the canvas
sized from the preview's video dimensions. After arming the capture loop
the code registers the track-ended listener on `getVideoTracks()[0]`,
which throws on an empty track list and is caught as
`SCREEN_START_FAILED`. -/
def ScreenRecorder.start (s : ScreenState) (pv : PreviewState) (dev : Device) :
    ScreenState × Except VError Unit :=
  let s0 := { s with hasCallback := true, preview := some pv }
  if dev.grant = false then
    (s0, Except.error VError.screenPermissionDenied)
  else
    let s1 := { s0 with stream := some dev.tracks }
    let s2 :=
      if dev.playOk then
        { s1 with
          preview := some { pv with srcAttached := true, playing := true }
          canvasW := (dev.tracks.headD ⟨0, false, 0, 0⟩).width
          canvasH := (dev.tracks.headD ⟨0, false, 0, 0⟩).height }
      else
        { s1 with preview := some { pv with srcAttached := true } }
    let s3 := { s2 with isRecording := true, timerArmed := true }
    match dev.tracks with
    | [] => (s3, Except.error VError.screenStartFailed)
    | _ :: _ => (s3, Except.ok ())

/-- `VideoManager` instance state. `sink` is the identity of the
caller-supplied `onFrame` callback; `released` is the ghost track ledger
lifted out of stopped recorders. `lastFrameTime` is NOT reset by `stop()`
in the source, and so remains here on stop. -/
structure VMState where
  recorder : Option RecState
  isActive : Bool
  lastFrameData : Option (List ℕ)
  lastSignificantFrame : Option String
  frameCount : ℕ
  lastFrameTime : ℕ
  fps : Option ℕ
  sink : Option ℕ
  facingModeUser : Bool
  containerVisible : Bool
  previewHasContent : Bool
  released : List MediaTrack
deriving DecidableEq

/-- The `{mimeType, data}` tuple pushed to the caller-supplied sink. -/
structure SinkMessage where
  mimeType : String
  data : String
deriving DecidableEq

/-- A frame as seen by `VideoManager.processFrame`: the base64 payload,
the dimensions the recorder reported, and its decoded RGBA pixels (the
result of drawing the decoded image on the temporary canvas). -/
structure FrameInput where
  payload : String
  width : ℕ
  height : ℕ
  pixels : List ℕ
deriving DecidableEq

/-- Result of `processFrame`: new manager state, the message pushed to the
sink (if any), and whether the preview thumbnail was redrawn. -/
structure ProcResult where
  state : VMState
  emitted : Option SinkMessage
  previewRefreshed : Bool
deriving DecidableEq

/-- The forwarding tail of `processFrame`: refresh the thumbnail, store the
current pixels as `lastFrameData`, cache the payload as
`lastSignificantFrame`, stamp `lastFrameTime`, increment `frameCount`, and
push `{mimeType: "image/jpeg", data}` to the sink. -/
def forwardFrame (m : VMState) (f : FrameInput) (now : ℕ) : ProcResult :=
  ⟨{ m with previewHasContent := true
            lastFrameData := some f.pixels
            lastSignificantFrame := some f.payload
            lastFrameTime := now
            frameCount := m.frameCount + 1 },
   some ⟨"image/jpeg", f.payload⟩, true⟩

/-- `VideoManager.processFrame(base64Data, w, h, onFrame)` (the `onload`
body): when a previous frame's pixels are stored, the frame is dropped —
with no state change at all — exactly when
`motionScore < MOTION_THRESHOLD && frameCount % FORCE_FRAME_INTERVAL !== 0`;
otherwise (including when no previous pixels are stored) it is forwarded. -/
def VideoManager.processFrame (m : VMState) (f : FrameInput) (now : ℕ) :
    ProcResult :=
  match m.lastFrameData with
  | some prev =>
    if detectMotion prev f.pixels < MOTION_THRESHOLD ∧
        m.frameCount % FORCE_FRAME_INTERVAL ≠ 0 then
      ⟨m, none, false⟩
    else forwardFrame m f now
  | none => forwardFrame m f now

/-- `VideoManager.stop()`: stops and nulls the recorder (lifting its
released-track ledger), clears the active flag, clears the thumbnail
canvas, hides the container, and resets `lastFrameData`,
`lastSignificantFrame` and `frameCount` (but not `lastFrameTime`). -/
def VideoManager.stop (m : VMState) : VMState :=
  let m1 :=
    match m.recorder with
    | some r => { m with recorder := none, released := m.released ++ (VideoRecorder.stop r).released }
    | none => m
  { m1 with isActive := false
            previewHasContent := false
            containerVisible := false
            lastFrameData := none
            lastSignificantFrame := none
            frameCount := 0 }

/-- `VideoManager.start(fps, onFrame)`: stores the sink and fps, shows the
container, builds a fresh `VideoRecorder` with that fps and starts it; on
success marks the manager active; on any error performs a full
`this.stop()` before surfacing `VIDEO_START_FAILED`. -/
def VideoManager.start (m : VMState) (fps : Option ℕ) (sink : Option ℕ)
    (pv : PreviewState) (dev : Device) : VMState × Except VError Unit :=
  let m0 := { m with sink := sink, fps := fps, containerVisible := true }
  let r0 := mkRecorder fps
  let m1 := { m0 with recorder := some r0 }
  match VideoRecorder.start r0 pv dev with
  | (r1, Except.ok _) =>
    ({ m1 with recorder := some r1, isActive := true }, Except.ok ())
  | (r1, Except.error _) =>
    (VideoManager.stop { m1 with recorder := some r1 },
     Except.error VError.videoStartFailed)

/-- The flip-camera click handler bound in the `VideoManager` constructor:
stop and null the current recorder, clear the active flag, toggle the
facing mode, then restart with the stored `this.fps` and `this.onFrame`;
if the restart throws, run `this.stop()` and surface
`VIDEO_FLIP_FAILED`. -/
def VideoManager.flip (m : VMState) (pv : PreviewState) (dev : Device) :
    VMState × Except VError Unit :=
  let m1 :=
    match m.recorder with
    | some r => { m with recorder := none, released := m.released ++ (VideoRecorder.stop r).released }
    | none => m
  let m2 := { m1 with isActive := false, facingModeUser := !m1.facingModeUser }
  match VideoManager.start m2 m.fps m.sink pv dev with
  | (m3, Except.ok _) => (m3, Except.ok ())
  | (m3, Except.error _) =>
    (VideoManager.stop m3, Except.error VError.videoFlipFailed)

/-! ## Concrete fixtures used by witnesses and counterexamples -/

/-- A fresh preview element. -/
def pvEx : PreviewState :=
  { srcAttached := false, width := 0, height := 0, playing := false }

/-- A camera track whose negotiated settings are 352×288. -/
def trackNeg : MediaTrack := { id := 1, stopped := false, width := 352, height := 288 }

/-- A granted device negotiating 352×288 whose preview plays. -/
def devNeg : Device := { grant := true, tracks := [trackNeg], playOk := true }

/-- A granted device whose preview fails to begin playback. -/
def devNoPlay : Device := { grant := true, tracks := [trackNeg], playOk := false }

/-- A 1024-character base64 payload (the minimum valid size). -/
def payloadA : String := String.mk (List.replicate 1024 'A')

/-- A freshly constructed `VideoManager` state. -/
def vm0 : VMState :=
  { recorder := none, isActive := false, lastFrameData := none,
    lastSignificantFrame := none, frameCount := 0, lastFrameTime := 0,
    fps := none, sink := none, facingModeUser := true,
    containerVisible := false, previewHasContent := false, released := [] }

/-- One stored RGBA pixel, black. -/
def pixZero : List ℕ := [0, 0, 0, 0]

/-- One RGBA pixel with identical RGB content but different alpha:
motion score against `pixZero` is 0. -/
def pixSame : List ℕ := [0, 0, 0, 255]

/-- A candidate frame whose pixels equal the stored ones on R, G, B. -/
def frameSame : FrameInput :=
  { payload := "AAAA", width := 352, height := 288, pixels := pixSame }

/-- Manager state holding previous pixels, on a counter divisible by 10. -/
def vmPrev : VMState :=
  { vm0 with lastFrameData := some pixZero, frameCount := 0, isActive := true }

/-- Manager state holding previous pixels, on counter 1 (not divisible by 10). -/
def vmSkip : VMState :=
  { vm0 with lastFrameData := some pixZero, frameCount := 1, isActive := true }

/-- The motion score of the fixture pair is zero. -/
lemma detectMotion_pixZero_pixSame : detectMotion pixZero pixSame = 0 := by
  norm_num [detectMotion, sampledIndices, pixZero, pixSame]
  norm_num [List.range_succ, channelDiff, absDiff, List.getD]

/-! ## C1: the motion-gate forwarding policy -/

/-- C1: While a previous-frame pixel buffer is stored, `processFrame`
forwards the frame to the sink iff the motion score is at least
`MOTION_THRESHOLD` (10) or the frame counter is divisible by
`FORCE_FRAME_INTERVAL` (10); in particular a zero-motion frame is still
forwarded whenever the counter is divisible by 10. -/
theorem gate_policy_iff (m : VMState) (f : FrameInput) (now : ℕ)
    (prev : List ℕ) (h : m.lastFrameData = some prev) :
    ((VideoManager.processFrame m f now).emitted.isSome = true ↔
      (10 ≤ detectMotion prev f.pixels ∨ m.frameCount % 10 = 0)) ∧
    (detectMotion prev f.pixels = 0 → m.frameCount % 10 = 0 →
      (VideoManager.processFrame m f now).emitted.isSome = true) := by
  have hred : VideoManager.processFrame m f now =
      if detectMotion prev f.pixels < MOTION_THRESHOLD ∧
          m.frameCount % FORCE_FRAME_INTERVAL ≠ 0 then ⟨m, none, false⟩
      else forwardFrame m f now := by
    unfold VideoManager.processFrame
    rw [h]
  have key : (VideoManager.processFrame m f now).emitted.isSome = true ↔
      (10 ≤ detectMotion prev f.pixels ∨ m.frameCount % 10 = 0) := by
    rw [hred]
    split_ifs with hcond
    · simp only [MOTION_THRESHOLD, FORCE_FRAME_INTERVAL] at hcond
      simp only [Option.isSome_none, Bool.false_eq_true, false_iff]
      push_neg
      exact hcond
    · simp only [MOTION_THRESHOLD, FORCE_FRAME_INTERVAL] at hcond
      push_neg at hcond
      simp only [forwardFrame, Option.isSome_some, true_iff]
      rcases lt_or_le (detectMotion prev f.pixels) 10 with h1 | h1
      · exact Or.inr (hcond h1)
      · exact Or.inl h1
  refine ⟨key, fun _ hc => key.mpr (Or.inr hc)⟩

/-- Witness for C1 at a concrete state: previous pixels stored, zero
motion score, counter 0 (divisible by 10) — the frame is forwarded. -/
theorem gate_policy_iff_witness :
    vmPrev.lastFrameData = some pixZero ∧
    ((VideoManager.processFrame vmPrev frameSame 7).emitted.isSome = true ↔
      (10 ≤ detectMotion pixZero frameSame.pixels ∨ vmPrev.frameCount % 10 = 0)) ∧
    (VideoManager.processFrame vmPrev frameSame 7).emitted.isSome = true := by
  refine ⟨rfl, (gate_policy_iff vmPrev frameSame 7 pixZero rfl).1, ?_⟩
  exact (gate_policy_iff vmPrev frameSame 7 pixZero rfl).2
    (by simpa [frameSame] using detectMotion_pixZero_pixSame) (by decide)

/-! ## C2: what the motion score actually is -/

/-- Counterexample for C2: on a 9-pixel (36-byte) RGBA buffer pair the code
divides the sampled sum by `pixelCount / 2 = 4.5`, not by the number of
sampled pixels (5): the score is 10/3 while the sampled-pixel average is 3. -/
theorem motion_score_avg_counterexample :
    detectMotion (List.replicate 36 0) (List.replicate 36 3) ≠
      detectMotionSpecAvg (List.replicate 36 0) (List.replicate 36 3) := by
  have h1 : detectMotion (List.replicate 36 0) (List.replicate 36 3) = 10 / 3 := by
    norm_num [detectMotion, sampledIndices]
    norm_num [List.range_succ, channelDiff, absDiff, List.getD,
      List.getElem?_replicate]
  have h2 : detectMotionSpecAvg (List.replicate 36 0) (List.replicate 36 3) = 3 := by
    norm_num [detectMotionSpecAvg, sampledIndices]
    norm_num [List.range_succ, channelDiff, absDiff, List.getD,
      List.getElem?_replicate]
  rw [h1, h2]
  norm_num

/-- C2 amended: the score divides the sampled sum by half the pixel count;
this equals the average over sampled pixels exactly when the pixel count is
even (byte length divisible by 8). -/
theorem motion_score_amended (prev curr : List ℕ)
    (_hlen : prev.length = curr.length) (h8 : (8 : ℕ) ∣ prev.length) :
    detectMotion prev curr = detectMotionSpecAvg prev curr := by
  obtain ⟨k, hk⟩ := h8
  unfold detectMotion detectMotionSpecAvg sampledIndices
  rw [hk]
  have h7 : (8 * k + 7) / 8 = k := by omega
  rw [h7]
  simp only [List.length_map, List.length_range]
  congr 1
  push_cast
  ring

/-- Witness for C2's amended statement on equal 8-byte buffers. -/
theorem motion_score_amended_witness :
    (List.replicate 8 0).length = (List.replicate 8 6).length ∧
    (8 : ℕ) ∣ (List.replicate 8 0).length ∧
    detectMotion (List.replicate 8 0) (List.replicate 8 6) =
      detectMotionSpecAvg (List.replicate 8 0) (List.replicate 8 6) :=
  ⟨rfl, by decide, motion_score_amended _ _ rfl (by decide)⟩

/-! ## C8: a skipped frame changes nothing observable -/

/-- C8: When previous pixels are stored, the motion score is below the
threshold and the counter is not divisible by `FORCE_FRAME_INTERVAL`,
`processFrame` leaves the whole manager state unchanged, does not refresh
the preview and does not invoke the sink. -/
theorem skipped_frame_no_effect (m : VMState) (f : FrameInput) (now : ℕ)
    (prev : List ℕ) (h : m.lastFrameData = some prev)
    (hs : detectMotion prev f.pixels < 10) (hc : m.frameCount % 10 ≠ 0) :
    VideoManager.processFrame m f now =
      { state := m, emitted := none, previewRefreshed := false } := by
  have hred : VideoManager.processFrame m f now =
      if detectMotion prev f.pixels < MOTION_THRESHOLD ∧
          m.frameCount % FORCE_FRAME_INTERVAL ≠ 0 then ⟨m, none, false⟩
      else forwardFrame m f now := by
    unfold VideoManager.processFrame
    rw [h]
  rw [hred, if_pos ⟨hs, hc⟩]

/-- Witness for C8: stored pixels, zero score, counter 1: the frame is
dropped with no state change. -/
theorem skipped_frame_no_effect_witness :
    vmSkip.lastFrameData = some pixZero ∧
    detectMotion pixZero frameSame.pixels < 10 ∧ vmSkip.frameCount % 10 ≠ 0 ∧
    VideoManager.processFrame vmSkip frameSame 5 =
      { state := vmSkip, emitted := none, previewRefreshed := false } := by
  have hsc : detectMotion pixZero frameSame.pixels < 10 := by
    simpa [frameSame] using detectMotion_pixZero_pixSame ▸ (by norm_num :
      (0 : ℚ) < 10)
  exact ⟨rfl, hsc, by decide,
    skipped_frame_no_effect vmSkip frameSame 5 pixZero rfl hsc (by decide)⟩

/-! ## C10: the first candidate frame bypasses the gate -/

/-- C10: With no stored previous-frame pixels (the situation right after
`start()` or `stop()`), `processFrame` forwards the frame to the sink as
an `image/jpeg` message, refreshes the preview, and stores the decoded
pixels as the previous-frame buffer; and `stop()` indeed leaves
`lastFrameData` empty. -/
theorem first_frame_bypasses_gate (m : VMState) (f : FrameInput) (now : ℕ)
    (h : m.lastFrameData = none) :
    (VideoManager.processFrame m f now).emitted =
        some { mimeType := "image/jpeg", data := f.payload } ∧
    (VideoManager.processFrame m f now).previewRefreshed = true ∧
    (VideoManager.processFrame m f now).state.lastFrameData = some f.pixels ∧
    ∀ m' : VMState, (VideoManager.stop m').lastFrameData = none := by
  have hred : VideoManager.processFrame m f now = forwardFrame m f now := by
    unfold VideoManager.processFrame
    rw [h]
  refine ⟨by rw [hred]; rfl, by rw [hred]; rfl, by rw [hred]; rfl, ?_⟩
  intro m'
  unfold VideoManager.stop
  cases m'.recorder <;> rfl

/-- Witness for C10 on a freshly constructed manager state. -/
theorem first_frame_bypasses_gate_witness :
    vm0.lastFrameData = none ∧
    (VideoManager.processFrame vm0 frameSame 3).emitted =
        some { mimeType := "image/jpeg", data := frameSame.payload } ∧
    (VideoManager.processFrame vm0 frameSame 3).state.lastFrameData =
        some frameSame.pixels :=
  ⟨rfl, (first_frame_bypasses_gate vm0 frameSame 3 rfl).1,
    (first_frame_bypasses_gate vm0 frameSame 3 rfl).2.2.1⟩

/-! ## C7: stop is idempotent -/

/-- C7: `VideoManager.stop` and `VideoRecorder.stop` are idempotent — a
second call leaves every observable field (timer, tracks, stream, preview,
canvases, motion state, counters) exactly as the first call left it — and
both are total, hence safe on a never-started state. -/
theorem stop_idempotent :
    ∀ (m : VMState) (r : RecState),
      VideoManager.stop (VideoManager.stop m) = VideoManager.stop m ∧
      VideoRecorder.stop (VideoRecorder.stop r) = VideoRecorder.stop r := by
  intro m r
  constructor
  · obtain ⟨rec, _, _, _, _, _, _, _, _, _, _, _⟩ := m
    cases rec <;> rfl
  · obtain ⟨st, pvw, _, _, _, _, _, _, _, _, _, _, _⟩ := r
    cases st <;> cases pvw <;> rfl

/-! ## C3: invalid encoded payloads never reach the sink -/

/-- C3: On a live sampling tick, a payload that is empty, contains a
character outside the base64 alphabet, or is shorter than 1024 characters
is not passed to the frame callback, and a log record is made. -/
theorem invalid_frame_dropped (s : RecState) (rs : ℕ) (p : String)
    (hrec : s.isRecording = true) (hcb : s.hasCallback = true)
    (hpv : s.preview ≠ none) (hready : 2 ≤ rs)
    (hbad : p.isEmpty = true ∨ (p.toList.all isBase64Char) = false ∨
      p.length < 1024) :
    (videoTick s rs p).emitted = none ∧ (videoTick s rs p).logged = true := by
  have hval : validateFrame p = false := by
    unfold validateFrame
    split_ifs with h1 h2
    · rfl
    · rfl
    · exfalso
      rcases hbad with hb | hb | hb
      · exact h1 (by rw [hb, Bool.true_or])
      · exact h1 (by rw [hb]; simp only [Bool.not_false, Bool.or_true])
      · exact h2 hb
  unfold videoTick
  rw [if_neg (by simp [hrec, hcb, hpv]), if_pos hready, if_pos hval]
  exact ⟨rfl, rfl⟩

/-- A recorder state as after a successful start on `devNeg`. -/
def recLive : RecState :=
  (VideoRecorder.start (mkRecorder (some 15)) pvEx devNeg).1

/-- Witness for C3: a live recorder state and the 3-character payload
"abc" (below the 1024 minimum): dropped and logged. -/
theorem invalid_frame_dropped_witness :
    recLive.isRecording = true ∧ recLive.hasCallback = true ∧
    recLive.preview ≠ none ∧ (2:ℕ) ≤ 2 ∧ ("abc" : String).length < 1024 ∧
    (videoTick recLive 2 "abc").emitted = none ∧
    (videoTick recLive 2 "abc").logged = true := by
  refine ⟨rfl, rfl, by decide, by decide, by decide, ?_, ?_⟩
  · exact (invalid_frame_dropped recLive 2 "abc" rfl rfl (by decide) (by decide)
      (Or.inr (Or.inr (by decide)))).1
  · exact (invalid_frame_dropped recLive 2 "abc" rfl rfl (by decide) (by decide)
      (Or.inr (Or.inr (by decide)))).2

/-! ## C4: the negotiated resolution governs sizing and emission -/

/-- C4: A successful camera start reads the negotiated resolution back from
the first track's settings; the internal raster canvas is sized to it,
the recorder's actual dimensions equal it (while the requested option
dimensions stay 640×480), and every validated emitted frame carries the
negotiated width and height. -/
theorem negotiated_resolution_used (fps : Option ℕ) (pv : PreviewState)
    (dev : Device) (t : MediaTrack) (ts : List MediaTrack)
    (hg : dev.grant = true) (ht : dev.tracks = t :: ts)
    (hp : dev.playOk = true) :
    (VideoRecorder.start (mkRecorder fps) pv dev).2 = Except.ok () ∧
    ((VideoRecorder.start (mkRecorder fps) pv dev).1.canvasW = t.width ∧
     (VideoRecorder.start (mkRecorder fps) pv dev).1.canvasH = t.height) ∧
    ((VideoRecorder.start (mkRecorder fps) pv dev).1.actualWidth = t.width ∧
     (VideoRecorder.start (mkRecorder fps) pv dev).1.actualHeight = t.height) ∧
    ((mkRecorder fps).options.width = 640 ∧
     (mkRecorder fps).options.height = 480) ∧
    (∀ (rs : ℕ) (p : String), 2 ≤ rs → validateFrame p = true →
      (videoTick (VideoRecorder.start (mkRecorder fps) pv dev).1 rs p).emitted =
        some { payload := p, width := t.width, height := t.height }) := by
  obtain ⟨g, tr, po⟩ := dev
  cases hg
  cases ht
  cases hp
  refine ⟨rfl, ⟨rfl, rfl⟩, ⟨rfl, rfl⟩, ⟨rfl, rfl⟩, ?_⟩
  intro rs p hready hvalid
  unfold videoTick
  rw [if_neg (by simp [VideoRecorder.start, mkRecorder]), if_pos hready,
    if_neg (by simp [hvalid])]
  rfl

set_option maxRecDepth 400000 in
/-- Witness for C4: requested 640×480, device negotiates 352×288, a valid
1024-character payload — the emitted frame carries 352×288. -/
theorem negotiated_resolution_used_witness :
    devNeg.grant = true ∧ devNeg.tracks = trackNeg :: [] ∧
    devNeg.playOk = true ∧ trackNeg.width = 352 ∧ trackNeg.height = 288 ∧
    (VideoRecorder.start (mkRecorder (some 15)) pvEx devNeg).2 =
      Except.ok () ∧
    (videoTick (VideoRecorder.start (mkRecorder (some 15)) pvEx devNeg).1 2
        payloadA).emitted =
      some { payload := payloadA, width := 352, height := 288 } := by
  have hv : validateFrame payloadA = true := by decide
  refine ⟨rfl, rfl, rfl, rfl, rfl, ?_, ?_⟩
  · exact (negotiated_resolution_used (some 15) pvEx devNeg trackNeg []
      rfl rfl rfl).1
  · exact (negotiated_resolution_used (some 15) pvEx devNeg trackNeg []
      rfl rfl rfl).2.2.2.2 2 payloadA (by decide) hv

/-! ## C5: preview-playback failure during start -/

/-- Counterexample for C5: on a granted screen share whose preview fails to
begin playback, `ScreenRecorder.start` nevertheless completes successfully
(the play rejection is swallowed with "resolve anyway"), so it is not true
that every capturer's start fails on preview-playback failure. -/
theorem preview_play_fail_counterexample :
    devNoPlay.playOk = false ∧
    (ScreenRecorder.start mkScreenRecorder pvEx devNoPlay).2 =
      Except.ok () := by
  exact ⟨rfl, rfl⟩

/-- C5 amended: when the preview fails to begin playback on a granted
device with at least one track, the CAMERA capturer's start fails with the
typed start error, but the SCREEN capturer's start completes successfully. -/
theorem preview_play_fail_amended (sR : RecState) (sS : ScreenState)
    (pv : PreviewState) (dev : Device) (hg : dev.grant = true)
    (ht : dev.tracks ≠ []) (hp : dev.playOk = false) :
    (VideoRecorder.start sR pv dev).2 =
      Except.error VError.videoStartFailed ∧
    (ScreenRecorder.start sS pv dev).2 = Except.ok () := by
  obtain ⟨g, tr, po⟩ := dev
  cases hg
  cases hp
  rcases tr with _ | ⟨t, ts⟩
  · exact absurd rfl ht
  · exact ⟨rfl, rfl⟩

/-- Witness for C5's amended statement on the concrete no-play device. -/
theorem preview_play_fail_amended_witness :
    devNoPlay.grant = true ∧ devNoPlay.tracks ≠ [] ∧
    devNoPlay.playOk = false ∧
    (VideoRecorder.start (mkRecorder (some 15)) pvEx devNoPlay).2 =
      Except.error VError.videoStartFailed ∧
    (ScreenRecorder.start mkScreenRecorder pvEx devNoPlay).2 =
      Except.ok () := by
  refine ⟨rfl, by decide, rfl, ?_, ?_⟩
  · exact (preview_play_fail_amended (mkRecorder (some 15)) mkScreenRecorder
      pvEx devNoPlay rfl (by decide) rfl).1
  · exact (preview_play_fail_amended (mkRecorder (some 15)) mkScreenRecorder
      pvEx devNoPlay rfl (by decide) rfl).2

/-! ## Helper lemmas about stop -/

/-- After `VideoManager.stop` the recorder reference is null. -/
lemma vm_stop_recorder_none (m : VMState) :
    (VideoManager.stop m).recorder = none := by
  unfold VideoManager.stop
  cases hrec : m.recorder <;> simp [hrec]

/-- After `VideoManager.stop` the manager is inactive. -/
lemma vm_stop_isActive_false (m : VMState) :
    (VideoManager.stop m).isActive = false := by
  unfold VideoManager.stop
  cases hrec : m.recorder <;> simp [hrec]

/-! ## C6: a failed start leaves no device lock -/

/-- C6: Whenever `VideoManager.start` surfaces an error (device denied,
no tracks, or preview playback failed), the state handed back has been
fully stopped first: no recorder is held, the manager is inactive, and
every device track acquired during the attempt has been stopped and
appended to the released ledger. -/
theorem failed_start_full_stop (m : VMState) (fps sink : Option ℕ)
    (pv : PreviewState) (dev : Device) (e : VError)
    (h : (VideoManager.start m fps sink pv dev).2 = Except.error e) :
    (VideoManager.start m fps sink pv dev).1.recorder = none ∧
    (VideoManager.start m fps sink pv dev).1.isActive = false ∧
    (VideoManager.start m fps sink pv dev).1.released =
      m.released ++
        (if dev.grant = true then dev.tracks.map stopTrack else []) ∧
    ∀ t ∈ dev.tracks.map stopTrack, t.stopped = true := by
  have hstop : ∀ t ∈ dev.tracks.map stopTrack, t.stopped = true := by
    intro t ht
    obtain ⟨a, _, rfl⟩ := List.mem_map.mp ht
    rfl
  obtain ⟨g, tr, po⟩ := dev
  cases g <;> rcases tr with _ | ⟨t, ts⟩ <;> cases po <;>
    refine ⟨?_, ?_, ?_, hstop⟩ <;>
    simp_all [VideoManager.start, VideoRecorder.start, VideoManager.stop,
      VideoRecorder.stop, mkRecorder]

/-- Witness for C6: granted device with one live track whose preview fails
to play — after the failed start the recorder is gone, the manager is
inactive and the acquired track is in the released ledger, stopped. -/
theorem failed_start_full_stop_witness :
    (VideoManager.start vm0 (some 5) (some 1) pvEx devNoPlay).2 =
      Except.error VError.videoStartFailed ∧
    (VideoManager.start vm0 (some 5) (some 1) pvEx devNoPlay).1.recorder =
      none ∧
    (VideoManager.start vm0 (some 5) (some 1) pvEx devNoPlay).1.isActive =
      false ∧
    (VideoManager.start vm0 (some 5) (some 1) pvEx devNoPlay).1.released =
      [stopTrack trackNeg] ∧
    (stopTrack trackNeg).stopped = true := by
  have happ := failed_start_full_stop vm0 (some 5) (some 1) pvEx devNoPlay
    VError.videoStartFailed (by rfl)
  refine ⟨rfl, happ.1, happ.2.1, ?_, rfl⟩
  have := happ.2.2.1
  simpa [vm0, devNoPlay] using this

/-! ## C9: flip preserves cadence and sink; a failed restart ends Idle -/

/-- C9: After a session started with cadence `C` and sink `cb`, the flip
handler restarts with the stored fps and callback: on success the new
recorder's effective cadence option is `C`, forwarded frames still go to
`cb`, and the manager is active again; if the restart fails the session
ends fully stopped (no recorder held, inactive). -/
theorem flip_preserves_cadence_sink (m : VMState) (pv : PreviewState)
    (dev : Device) (C cb : ℕ) (hf : m.fps = some C) (hs : m.sink = some cb) :
    ((VideoManager.flip m pv dev).2 = Except.ok () →
      (VideoManager.flip m pv dev).1.isActive = true ∧
      (VideoManager.flip m pv dev).1.sink = some cb ∧
      ∃ r, (VideoManager.flip m pv dev).1.recorder = some r ∧
        r.options.fps = some C) ∧
    (∀ e, (VideoManager.flip m pv dev).2 = Except.error e →
      (VideoManager.flip m pv dev).1.recorder = none ∧
      (VideoManager.flip m pv dev).1.isActive = false) := by
  obtain ⟨g, tr, po⟩ := dev
  cases hrec : m.recorder <;> cases g <;> rcases tr with _ | ⟨t, ts⟩ <;>
    cases po <;>
    constructor <;>
    · first
      | (intro hok
         refine ⟨?_, ?_, ⟨(VideoRecorder.start (mkRecorder m.fps) pv
             ⟨true, t :: ts, true⟩).1, ?_, ?_⟩⟩ <;>
           simp_all [VideoManager.flip, VideoManager.start,
             VideoRecorder.start, mkRecorder])
      | (intro hok
         simp_all [VideoManager.flip, VideoManager.start,
           VideoRecorder.start, mkRecorder, VideoManager.stop,
           VideoRecorder.stop])

/-- A manager state as after a successful `start(5, cb)` with sink id 1. -/
def vmLive : VMState :=
  { vm0 with fps := some 5, sink := some 1, isActive := true, recorder := some recLive }

/-- A device whose acquisition is denied. -/
def devDenied : Device := { grant := false, tracks := [], playOk := false }

/-- Witness for C9: flipping a session started with cadence 5 and sink 1
succeeds on a granted device keeping cadence and sink, and on a denied
device fails leaving the manager Idle. -/
theorem flip_preserves_cadence_sink_witness :
    vmLive.fps = some 5 ∧ vmLive.sink = some 1 ∧
    (VideoManager.flip vmLive pvEx devNeg).2 = Except.ok () ∧
    (VideoManager.flip vmLive pvEx devNeg).1.isActive = true ∧
    (VideoManager.flip vmLive pvEx devNeg).1.sink = some 1 ∧
    ((VideoManager.flip vmLive pvEx devNeg).1.recorder.map
        (fun r => r.options.fps)) = some (some 5) ∧
    (VideoManager.flip vmLive pvEx devDenied).2 =
      Except.error VError.videoFlipFailed ∧
    (VideoManager.flip vmLive pvEx devDenied).1.recorder = none ∧
    (VideoManager.flip vmLive pvEx devDenied).1.isActive = false := by
  have hok := (flip_preserves_cadence_sink vmLive pvEx devNeg 5 1 rfl rfl).1
    (by rfl)
  have herr := (flip_preserves_cadence_sink vmLive pvEx devDenied 5 1 rfl rfl).2
    VError.videoFlipFailed (by rfl)
  obtain ⟨r, hr, hrf⟩ := hok.2.2
  refine ⟨rfl, rfl, by rfl, hok.1, hok.2.1, ?_, by rfl, herr.1, herr.2⟩
  rw [hr]
  simp [hrf]
